import Mathlib

/-!
Verification of the question-request builder of `gforms/forms_tools.py`
(`_build_question_requests`), the pure transform that converts a sequence of
simplified question descriptors into Google Forms API `createItem` request
objects for a batch update.

The embedding mirrors the Python dictionaries with a small JSON value type
`JVal`, so that key presence versus absence in the produced request bodies is
observable.  A `QuestionDescriptor` models the input dictionary: every field an
`Option`, `none` meaning the key is absent (Python `dict.get` returning `None`
or the supplied default).
-/

set_option autoImplicit false

/-- JSON-like values, mirroring the Python dictionaries the builder constructs.
An object keeps its fields in insertion order, as Python dicts do. -/
inductive JVal where
  | null
  | bool (b : Bool)
  | int (n : Int)
  | str (s : String)
  | arr (elems : List JVal)
  | obj (fields : List (String × JVal))

/-- Dictionary access: `v.getKey k` is Python `v[k]`/`v.get(k)` on an object,
`none` when the key is absent or `v` is not an object. -/
def JVal.getKey : JVal → String → Option JVal
  | .obj fields, k => fields.lookup k
  | _, _ => none

/-- Input question descriptor: the dictionary shape consumed by
`_build_question_requests`.  `none` models an absent key. -/
structure QuestionDescriptor where
  type : Option String := none
  title : Option String := none
  description : Option String := none
  required : Option Bool := none
  options : Option (List String) := none
  scale_min : Option Int := none
  scale_max : Option Int := none
  scale_labels : Option (List (String × String)) := none
  include_time : Option Bool := none
  include_year : Option Bool := none
deriving DecidableEq

/-- Python `str()` applied to the result of `q.get("scale_min")`:
`str(None)` is the string `"None"`, `str(n)` the decimal rendering. -/
def pyStr : Option Int → String
  | none => "None"
  | some n => toString n

/-- Embeds an optional string the way a Python value lands in a dict:
`None` becomes JSON null. -/
def jOfOptStr : Option String → JVal
  | none => .null
  | some s => .str s

/-- Embeds an optional integer the way a Python value lands in a dict. -/
def jOfOptInt : Option Int → JVal
  | none => .null
  | some n => .int n

/-- `[{"value": opt} for opt in options]` from the two choice branches. -/
def wrapOptions (opts : List String) : JVal :=
  .arr (opts.map (fun opt => .obj [("value", .str opt)]))

/-- The kind-specific dispatch of `_build_question_requests` (lines 167-202):
the extra field added to the `question` object for a recognized `type`, or
`none` for the `else: continue` branch. The `if` chain follows the source's
comparison order. -/
def buildQuestionObj (q : QuestionDescriptor) : Option (List (String × JVal)) :=
  if q.type = some "TEXT_QUESTION" then
    some [("textQuestion", .obj [])]
  else if q.type = some "MULTIPLE_CHOICE_QUESTION" then
    some [("choiceQuestion", .obj [("type", .str "RADIO"),
      ("options", wrapOptions (q.options.getD []))])]
  else if q.type = some "SCALE_QUESTION" then
    some [("scaleQuestion", .obj [
      ("low", jOfOptInt q.scale_min),
      ("high", jOfOptInt q.scale_max),
      ("lowLabel", jOfOptStr ((q.scale_labels.getD []).lookup (pyStr q.scale_min))),
      ("highLabel", jOfOptStr ((q.scale_labels.getD []).lookup (pyStr q.scale_max)))])]
  else if q.type = some "CHECKBOX_QUESTION" then
    some [("choiceQuestion", .obj [("type", .str "CHECKBOX"),
      ("options", wrapOptions (q.options.getD []))])]
  else if q.type = some "DATE_QUESTION" then
    some [("dateQuestion", .obj [
      ("includeTime", .bool (q.include_time.getD false)),
      ("includeYear", .bool (q.include_year.getD true))])]
  else if q.type = some "TIME_QUESTION" then
    some [("timeQuestion", .obj [])]
  else
    none

/-- The `item` dictionary (lines 157-165) with the kind-specific field appended
to the `question` sub-dictionary, as the branch assignments do. -/
def mkItem (q : QuestionDescriptor) (qFields : List (String × JVal)) : JVal :=
  .obj [
    ("title", jOfOptStr q.title),
    ("description", jOfOptStr q.description),
    ("questionItem", .obj [("question",
      .obj (("required", .bool (q.required.getD false)) :: qFields))])]

/-- The request appended for one question (lines 204-211). -/
def mkRequest (i : Nat) (item : JVal) : JVal :=
  .obj [("createItem", .obj [
    ("item", item),
    ("location", .obj [("index", .int i)])])]

/-- The enumerate loop of `_build_question_requests`: `i` is the running
original index; an unrecognized `type` hits `continue` and still advances `i`. -/
def buildAux : Nat → List QuestionDescriptor → List JVal
  | _, [] => []
  | i, q :: rest =>
    match buildQuestionObj q with
    | none => buildAux (i + 1) rest
    | some qFields => mkRequest i (mkItem q qFields) :: buildAux (i + 1) rest

/-- `_build_question_requests` (lines 146-212). -/
def _build_question_requests (questions : List QuestionDescriptor) : List JVal :=
  buildAux 0 questions

/-- Observation: the `item` of a request. -/
def reqItem (r : JVal) : Option JVal :=
  (r.getKey "createItem").bind (fun c => c.getKey "item")

/-- Observation: the `location.index` of a request. -/
def reqIndex (r : JVal) : Option JVal :=
  ((r.getKey "createItem").bind (fun c => c.getKey "location")).bind
    (fun l => l.getKey "index")

/-- Observation: the `question` object of a request. -/
def reqQuestion (r : JVal) : Option JVal :=
  ((reqItem r).bind (fun it => it.getKey "questionItem")).bind
    (fun qi => qi.getKey "question")

/-- Observation: the item's `title` value. -/
def reqTitle (r : JVal) : Option JVal :=
  (reqItem r).bind (fun it => it.getKey "title")

/-- Observation: the item's `description` value; `some` means the key is
present in the request body. -/
def reqDescription (r : JVal) : Option JVal :=
  (reqItem r).bind (fun it => it.getKey "description")

/-- Observation: the question's `required` flag. -/
def reqRequired (r : JVal) : Option JVal :=
  (reqQuestion r).bind (fun qu => qu.getKey "required")

/-- Observation: the question's `choiceQuestion` payload. -/
def reqChoice (r : JVal) : Option JVal :=
  (reqQuestion r).bind (fun qu => qu.getKey "choiceQuestion")

/-- Observation: the question's `scaleQuestion` payload. -/
def reqScale (r : JVal) : Option JVal :=
  (reqQuestion r).bind (fun qu => qu.getKey "scaleQuestion")

/-- Observation: the question's `dateQuestion` payload. -/
def reqDate (r : JVal) : Option JVal :=
  (reqQuestion r).bind (fun qu => qu.getKey "dateQuestion")

/-- Observation: the scale payload's `low` bound. -/
def scaleLow (r : JVal) : Option JVal :=
  (reqScale r).bind (fun s => s.getKey "low")

/-- Observation: the scale payload's `high` bound. -/
def scaleHigh (r : JVal) : Option JVal :=
  (reqScale r).bind (fun s => s.getKey "high")

/-- Observation: the scale payload's `lowLabel`. -/
def scaleLowLabel (r : JVal) : Option JVal :=
  (reqScale r).bind (fun s => s.getKey "lowLabel")

/-- Observation: the scale payload's `highLabel`. -/
def scaleHighLabel (r : JVal) : Option JVal :=
  (reqScale r).bind (fun s => s.getKey "highLabel")

/-- The six recognized `type` tags, stated independently of the builder. -/
def recognizedKind (q : QuestionDescriptor) : Bool :=
  q.type == some "TEXT_QUESTION" || q.type == some "MULTIPLE_CHOICE_QUESTION" ||
  q.type == some "SCALE_QUESTION" || q.type == some "CHECKBOX_QUESTION" ||
  q.type == some "DATE_QUESTION" || q.type == some "TIME_QUESTION"

/-- Example descriptors used to witness the theorems on concrete inputs. -/
def textEx : QuestionDescriptor :=
  { type := some "TEXT_QUESTION", title := some "Your name" }

def unknownEx : QuestionDescriptor :=
  { type := some "UNKNOWN_KIND", title := some "Mystery" }

def checkboxEx : QuestionDescriptor :=
  { type := some "CHECKBOX_QUESTION", title := some "Pick some",
    options := some ["a", "b"] }

def mcEx : QuestionDescriptor :=
  { type := some "MULTIPLE_CHOICE_QUESTION", title := some "Pick one",
    options := some ["red", "green", "blue"] }

def mcNoOptionsEx : QuestionDescriptor :=
  { type := some "MULTIPLE_CHOICE_QUESTION", title := some "Pick one" }

def checkboxNoOptionsEx : QuestionDescriptor :=
  { type := some "CHECKBOX_QUESTION", title := some "Pick some" }

def scaleEx : QuestionDescriptor :=
  { type := some "SCALE_QUESTION", title := some "Rate", scale_min := some 1,
    scale_max := some 5, scale_labels := some [("1", "Low"), ("5", "High")] }

def scaleNoLabelsEx : QuestionDescriptor :=
  { type := some "SCALE_QUESTION", title := some "Rate", scale_min := some 1,
    scale_max := some 5 }

def scaleNoMinEx : QuestionDescriptor :=
  { type := some "SCALE_QUESTION", title := some "Rate", scale_max := some 5,
    scale_labels := some [("1", "Low"), ("5", "High")] }

def dateEx : QuestionDescriptor :=
  { type := some "DATE_QUESTION", title := some "When" }

def textNoTitleEx : QuestionDescriptor :=
  { type := some "TEXT_QUESTION" }

/-- The request the builder produces for `textNoTitleEx` at index 0. -/
def textNoTitleReq : JVal :=
  mkRequest 0 (mkItem textNoTitleEx [("textQuestion", .obj [])])

/-- The request the builder produces for `textEx` at index 0. -/
def textExReq : JVal :=
  mkRequest 0 (mkItem textEx [("textQuestion", .obj [])])

/-- The dispatch produces a payload exactly for the six recognized tags. -/
theorem isSome_buildQuestionObj (q : QuestionDescriptor) :
    (buildQuestionObj q).isSome = recognizedKind q := by
  unfold buildQuestionObj recognizedKind
  split_ifs <;> simp_all

theorem reqIndex_mkRequest (i : Nat) (item : JVal) :
    reqIndex (mkRequest i item) = some (.int i) := rfl

theorem reqItem_mkRequest (i : Nat) (item : JVal) :
    reqItem (mkRequest i item) = some item := rfl

theorem reqQuestion_mkRequest (i : Nat) (q : QuestionDescriptor)
    (qFields : List (String × JVal)) :
    reqQuestion (mkRequest i (mkItem q qFields))
      = some (.obj (("required", .bool (q.required.getD false)) :: qFields)) := rfl

theorem reqTitle_mkRequest (i : Nat) (q : QuestionDescriptor)
    (qFields : List (String × JVal)) :
    reqTitle (mkRequest i (mkItem q qFields)) = some (jOfOptStr q.title) := rfl

theorem reqDescription_mkRequest (i : Nat) (q : QuestionDescriptor)
    (qFields : List (String × JVal)) :
    reqDescription (mkRequest i (mkItem q qFields))
      = some (jOfOptStr q.description) := rfl

theorem reqRequired_mkRequest (i : Nat) (q : QuestionDescriptor)
    (qFields : List (String × JVal)) :
    reqRequired (mkRequest i (mkItem q qFields))
      = some (.bool (q.required.getD false)) := rfl

/-- One request per recognized descriptor: length of the loop's output. -/
theorem buildAux_length (i : Nat) (qs : List QuestionDescriptor) :
    (buildAux i qs).length = qs.countP (fun q => recognizedKind q) := by
  induction qs generalizing i with
  | nil => simp [buildAux]
  | cons q rest ih =>
    have hs := isSome_buildQuestionObj q
    unfold buildAux
    cases hb : buildQuestionObj q with
    | none =>
      rw [hb] at hs
      simp [List.countP_cons, ← hs, ih]
    | some f =>
      rw [hb] at hs
      simp [List.countP_cons, ← hs, ih]

/-- The positions in the loop's output are exactly the original indices of the
recognized descriptors, in order. -/
theorem buildAux_map_reqIndex (i : Nat) (qs : List QuestionDescriptor) :
    (buildAux i qs).map reqIndex
      = ((List.enumFrom i qs).filter (fun p => recognizedKind p.2)).map
          (fun p => some (JVal.int p.1)) := by
  induction qs generalizing i with
  | nil => simp [buildAux]
  | cons q rest ih =>
    have hs := isSome_buildQuestionObj q
    unfold buildAux
    cases hb : buildQuestionObj q with
    | none =>
      rw [hb] at hs
      simp only [List.enumFrom, List.filter_cons, ← hs, Option.isSome_none,
        Bool.false_eq_true, if_false, ih]
    | some f =>
      rw [hb] at hs
      simp only [List.enumFrom, List.filter_cons, ← hs, Option.isSome_some,
        if_true, List.map_cons, ih, reqIndex_mkRequest]

/-- Membership: the descriptor at original index `j` with a recognized kind
contributes its request to the loop's output. -/
theorem buildAux_mem_of_get (i j : Nat) (qs : List QuestionDescriptor)
    (q : QuestionDescriptor) (qFields : List (String × JVal))
    (h : qs[j]? = some q) (hf : buildQuestionObj q = some qFields) :
    mkRequest (i + j) (mkItem q qFields) ∈ buildAux i qs := by
  induction qs generalizing i j with
  | nil => simp at h
  | cons a rest ih =>
    cases j with
    | zero =>
      rw [List.getElem?_cons_zero, Option.some.injEq] at h
      subst h
      unfold buildAux
      rw [hf]
      simp
    | succ j =>
      rw [List.getElem?_cons_succ] at h
      have hmem := ih (i + 1) j h
      have harith : i + 1 + j = i + (j + 1) := by omega
      rw [harith] at hmem
      unfold buildAux
      cases hb : buildQuestionObj a with
      | none => exact hmem
      | some f => exact List.mem_cons_of_mem _ hmem

/-- Inverse direction: every element of the loop's output comes from a
recognized descriptor at its original index. -/
theorem mem_buildAux (i : Nat) (qs : List QuestionDescriptor) (r : JVal)
    (hr : r ∈ buildAux i qs) :
    ∃ j q qFields, qs[j]? = some q ∧ buildQuestionObj q = some qFields ∧
      r = mkRequest (i + j) (mkItem q qFields) := by
  induction qs generalizing i with
  | nil => simp [buildAux] at hr
  | cons a rest ih =>
    unfold buildAux at hr
    cases hb : buildQuestionObj a with
    | none =>
      rw [hb] at hr
      obtain ⟨j, q, qFields, hget, hq, hreq⟩ := ih (i + 1) hr
      refine ⟨j + 1, q, qFields, ?_, hq, ?_⟩
      · rw [List.getElem?_cons_succ]; exact hget
      · rw [hreq]; congr 1; omega
    | some f =>
      rw [hb] at hr
      rcases List.mem_cons.mp hr with hhead | htail
      · exact ⟨0, a, f, List.getElem?_cons_zero, hb, by simpa using hhead⟩
      · obtain ⟨j, q, qFields, hget, hq, hreq⟩ := ih (i + 1) htail
        refine ⟨j + 1, q, qFields, ?_, hq, ?_⟩
        · rw [List.getElem?_cons_succ]; exact hget
        · rw [hreq]; congr 1; omega

/-- Membership specialised to the whole builder (loop started at index 0). -/
theorem build_mem_of_get (i : Nat) (qs : List QuestionDescriptor)
    (q : QuestionDescriptor) (qFields : List (String × JVal))
    (h : qs[i]? = some q) (hf : buildQuestionObj q = some qFields) :
    mkRequest i (mkItem q qFields) ∈ _build_question_requests qs := by
  have hmem := buildAux_mem_of_get 0 i qs q qFields h hf
  simpa using hmem

theorem buildQuestionObj_text (q : QuestionDescriptor)
    (ht : q.type = some "TEXT_QUESTION") :
    buildQuestionObj q = some [("textQuestion", .obj [])] := by
  unfold buildQuestionObj
  rw [ht]
  simp

theorem buildQuestionObj_mc (q : QuestionDescriptor)
    (ht : q.type = some "MULTIPLE_CHOICE_QUESTION") :
    buildQuestionObj q = some [("choiceQuestion", .obj [("type", .str "RADIO"),
      ("options", wrapOptions (q.options.getD []))])] := by
  unfold buildQuestionObj
  rw [ht]
  simp

theorem buildQuestionObj_scale (q : QuestionDescriptor)
    (ht : q.type = some "SCALE_QUESTION") :
    buildQuestionObj q = some [("scaleQuestion", .obj [
      ("low", jOfOptInt q.scale_min),
      ("high", jOfOptInt q.scale_max),
      ("lowLabel", jOfOptStr ((q.scale_labels.getD []).lookup (pyStr q.scale_min))),
      ("highLabel", jOfOptStr ((q.scale_labels.getD []).lookup (pyStr q.scale_max)))])] := by
  unfold buildQuestionObj
  rw [ht]
  simp

theorem buildQuestionObj_checkbox (q : QuestionDescriptor)
    (ht : q.type = some "CHECKBOX_QUESTION") :
    buildQuestionObj q = some [("choiceQuestion", .obj [("type", .str "CHECKBOX"),
      ("options", wrapOptions (q.options.getD []))])] := by
  unfold buildQuestionObj
  rw [ht]
  simp

theorem buildQuestionObj_date (q : QuestionDescriptor)
    (ht : q.type = some "DATE_QUESTION") :
    buildQuestionObj q = some [("dateQuestion", .obj [
      ("includeTime", .bool (q.include_time.getD false)),
      ("includeYear", .bool (q.include_year.getD true))])] := by
  unfold buildQuestionObj
  rw [ht]
  simp

theorem reqChoice_mkRequest (i : Nat) (q : QuestionDescriptor) (payload : JVal) :
    reqChoice (mkRequest i (mkItem q [("choiceQuestion", payload)]))
      = some payload := rfl

theorem reqDate_mkRequest (i : Nat) (q : QuestionDescriptor) (payload : JVal) :
    reqDate (mkRequest i (mkItem q [("dateQuestion", payload)]))
      = some payload := rfl

theorem scaleParts_mkRequest (i : Nat) (q : QuestionDescriptor)
    (lo hi ll hl : JVal) :
    scaleLow (mkRequest i (mkItem q [("scaleQuestion", .obj [("low", lo),
        ("high", hi), ("lowLabel", ll), ("highLabel", hl)])])) = some lo ∧
    scaleHigh (mkRequest i (mkItem q [("scaleQuestion", .obj [("low", lo),
        ("high", hi), ("lowLabel", ll), ("highLabel", hl)])])) = some hi ∧
    scaleLowLabel (mkRequest i (mkItem q [("scaleQuestion", .obj [("low", lo),
        ("high", hi), ("lowLabel", ll), ("highLabel", hl)])])) = some ll ∧
    scaleHighLabel (mkRequest i (mkItem q [("scaleQuestion", .obj [("low", lo),
        ("high", hi), ("lowLabel", ll), ("highLabel", hl)])])) = some hl :=
  ⟨rfl, rfl, rfl, rfl⟩

/-- A lookup over an association list none of whose keys is `k` finds nothing. -/
theorem lookup_none_of_no_key {β : Type} (k : String) (l : List (String × β))
    (h : ∀ p ∈ l, p.1 ≠ k) : l.lookup k = none := by
  induction l with
  | nil => rfl
  | cons p rest ih =>
    obtain ⟨a, b⟩ := p
    have ha : a ≠ k := h (a, b) (List.mem_cons_self _ _)
    rw [List.lookup_cons]
    simp only [beq_false_of_ne (Ne.symm ha)]
    exact ih (fun p hp => h p (List.mem_cons_of_mem _ hp))

/-- C1: every recognized-kind descriptor yields exactly one request and every
unrecognized one yields none, so the output length equals the count of
recognized-kind descriptors and is at most the input length; the positions of
the requests, in order, are exactly the original input indices of the
recognized descriptors. -/
theorem build_requests_count_and_positions (qs : List QuestionDescriptor) :
    (_build_question_requests qs).length = qs.countP recognizedKind ∧
    (_build_question_requests qs).length ≤ qs.length ∧
    (_build_question_requests qs).map reqIndex
      = (qs.enum.filter (fun p => recognizedKind p.2)).map
          (fun p => some (JVal.int p.1)) := by
  refine ⟨buildAux_length 0 qs, ?_, buildAux_map_reqIndex 0 qs⟩
  rw [show (_build_question_requests qs).length = qs.countP recognizedKind from
    buildAux_length 0 qs]
  exact List.countP_le_length recognizedKind

/-- C2: the mixed input [TEXT, UNKNOWN_KIND, CHECKBOX] yields exactly two
requests with location indices [0, 2] (index 1 skipped, not renumbered), and in
general each request's position is its descriptor's original input index, not a
re-compacted one. -/
theorem build_requests_mixed_example :
    (_build_question_requests [textEx, unknownEx, checkboxEx]).map reqIndex
      = [some (.int 0), some (.int 2)] ∧
    ∀ qs : List QuestionDescriptor,
      (_build_question_requests qs).map reqIndex
        = (qs.enum.filter (fun p => recognizedKind p.2)).map
            (fun p => some (JVal.int p.1)) :=
  ⟨rfl, fun qs => buildAux_map_reqIndex 0 qs⟩

/-- C3: a MULTIPLE_CHOICE descriptor yields a RADIO (single-select) choice
payload and a CHECKBOX descriptor a CHECKBOX (multi-select) one, and in both
the options sequence is the descriptor's options list in order, each option
wrapped as an object with a single `value` field. -/
theorem choice_options_preserved (qs : List QuestionDescriptor) (i : Nat)
    (q : QuestionDescriptor) (opts : List String) (h : qs[i]? = some q)
    (hopts : q.options = some opts) :
    (q.type = some "MULTIPLE_CHOICE_QUESTION" →
      ∃ r ∈ _build_question_requests qs, reqIndex r = some (.int i) ∧
        reqChoice r = some (.obj [("type", .str "RADIO"),
          ("options", .arr (opts.map (fun opt => .obj [("value", .str opt)])))])) ∧
    (q.type = some "CHECKBOX_QUESTION" →
      ∃ r ∈ _build_question_requests qs, reqIndex r = some (.int i) ∧
        reqChoice r = some (.obj [("type", .str "CHECKBOX"),
          ("options", .arr (opts.map (fun opt => .obj [("value", .str opt)])))])) := by
  constructor
  · intro ht
    have hb := buildQuestionObj_mc q ht
    rw [hopts] at hb
    exact ⟨_, build_mem_of_get i qs q _ h hb, reqIndex_mkRequest i _,
      reqChoice_mkRequest i q _⟩
  · intro ht
    have hb := buildQuestionObj_checkbox q ht
    rw [hopts] at hb
    exact ⟨_, build_mem_of_get i qs q _ h hb, reqIndex_mkRequest i _,
      reqChoice_mkRequest i q _⟩

/-- Witness for C3: a three-option MULTIPLE_CHOICE descriptor at index 0. -/
theorem choice_options_preserved_witness :
    [mcEx][0]? = some mcEx ∧ mcEx.options = some ["red", "green", "blue"] ∧
    mcEx.type = some "MULTIPLE_CHOICE_QUESTION" ∧
    ∃ r ∈ _build_question_requests [mcEx], reqIndex r = some (.int 0) ∧
      reqChoice r = some (.obj [("type", .str "RADIO"),
        ("options", .arr ((["red", "green", "blue"] : List String).map
          (fun opt => .obj [("value", .str opt)])))]) :=
  ⟨rfl, rfl, rfl,
    (choice_options_preserved [mcEx] 0 mcEx ["red", "green", "blue"] rfl rfl).1 rfl⟩

/-- C4: a SCALE descriptor's payload takes its low/high bounds from
scale_min/scale_max and its low/high labels from looking up the stringified
bounds in scale_labels (so absent labels come out null). -/
theorem scale_payload_bounds_and_labels (qs : List QuestionDescriptor)
    (i : Nat) (q : QuestionDescriptor) (h : qs[i]? = some q)
    (ht : q.type = some "SCALE_QUESTION") :
    ∃ r ∈ _build_question_requests qs, reqIndex r = some (.int i) ∧
      scaleLow r = some (jOfOptInt q.scale_min) ∧
      scaleHigh r = some (jOfOptInt q.scale_max) ∧
      scaleLowLabel r
        = some (jOfOptStr ((q.scale_labels.getD []).lookup (pyStr q.scale_min))) ∧
      scaleHighLabel r
        = some (jOfOptStr ((q.scale_labels.getD []).lookup (pyStr q.scale_max))) := by
  obtain ⟨h1, h2, h3, h4⟩ := scaleParts_mkRequest i q (jOfOptInt q.scale_min)
    (jOfOptInt q.scale_max)
    (jOfOptStr ((q.scale_labels.getD []).lookup (pyStr q.scale_min)))
    (jOfOptStr ((q.scale_labels.getD []).lookup (pyStr q.scale_max)))
  exact ⟨_, build_mem_of_get i qs q _ h (buildQuestionObj_scale q ht),
    reqIndex_mkRequest i _, h1, h2, h3, h4⟩

/-- Witness for C4: scale_min=1, scale_max=5 with labels yields Low/High; the
same bounds without scale_labels yield null labels. -/
theorem scale_payload_bounds_and_labels_witness :
    (∃ r ∈ _build_question_requests [scaleEx], reqIndex r = some (.int 0) ∧
      scaleLow r = some (.int 1) ∧ scaleHigh r = some (.int 5) ∧
      scaleLowLabel r = some (.str "Low") ∧
      scaleHighLabel r = some (.str "High")) ∧
    (∃ r ∈ _build_question_requests [scaleNoLabelsEx],
      reqIndex r = some (.int 0) ∧
      scaleLow r = some (.int 1) ∧ scaleHigh r = some (.int 5) ∧
      scaleLowLabel r = some JVal.null ∧ scaleHighLabel r = some JVal.null) :=
  ⟨scale_payload_bounds_and_labels [scaleEx] 0 scaleEx rfl rfl,
   scale_payload_bounds_and_labels [scaleNoLabelsEx] 0 scaleNoLabelsEx rfl rfl⟩

/-- C5: a DATE descriptor with neither include_time nor include_year supplied
produces a date payload with includeTime=false and includeYear=true. -/
theorem date_defaults (qs : List QuestionDescriptor) (i : Nat)
    (q : QuestionDescriptor) (h : qs[i]? = some q)
    (ht : q.type = some "DATE_QUESTION")
    (hti : q.include_time = none) (hyr : q.include_year = none) :
    ∃ r ∈ _build_question_requests qs, reqIndex r = some (.int i) ∧
      reqDate r = some (.obj [("includeTime", .bool false),
        ("includeYear", .bool true)]) := by
  have hb := buildQuestionObj_date q ht
  rw [hti, hyr] at hb
  exact ⟨_, build_mem_of_get i qs q _ h hb, reqIndex_mkRequest i _,
    reqDate_mkRequest i q _⟩

/-- Witness for C5: a DATE descriptor with no flags at index 0. -/
theorem date_defaults_witness :
    [dateEx][0]? = some dateEx ∧ dateEx.type = some "DATE_QUESTION" ∧
    ∃ r ∈ _build_question_requests [dateEx], reqIndex r = some (.int 0) ∧
      reqDate r = some (.obj [("includeTime", .bool false),
        ("includeYear", .bool true)]) :=
  ⟨rfl, rfl, date_defaults [dateEx] 0 dateEx rfl rfl rfl rfl⟩

/-- C6: the builder is a total function (no exception on any input), and a
choice descriptor with an absent options field still yields its request, with
an empty options array in the payload. -/
theorem missing_options_degrade_empty (qs : List QuestionDescriptor) (i : Nat)
    (q : QuestionDescriptor) (h : qs[i]? = some q) (hopt : q.options = none) :
    (q.type = some "MULTIPLE_CHOICE_QUESTION" →
      ∃ r ∈ _build_question_requests qs, reqIndex r = some (.int i) ∧
        reqChoice r = some (.obj [("type", .str "RADIO"),
          ("options", .arr [])])) ∧
    (q.type = some "CHECKBOX_QUESTION" →
      ∃ r ∈ _build_question_requests qs, reqIndex r = some (.int i) ∧
        reqChoice r = some (.obj [("type", .str "CHECKBOX"),
          ("options", .arr [])])) := by
  constructor
  · intro ht
    have hb := buildQuestionObj_mc q ht
    rw [hopt] at hb
    exact ⟨_, build_mem_of_get i qs q _ h hb, reqIndex_mkRequest i _,
      reqChoice_mkRequest i q _⟩
  · intro ht
    have hb := buildQuestionObj_checkbox q ht
    rw [hopt] at hb
    exact ⟨_, build_mem_of_get i qs q _ h hb, reqIndex_mkRequest i _,
      reqChoice_mkRequest i q _⟩

/-- Witness for C6: choice descriptors with no options field at index 0. -/
theorem missing_options_degrade_empty_witness :
    [mcNoOptionsEx][0]? = some mcNoOptionsEx ∧
    mcNoOptionsEx.options = none ∧
    (∃ r ∈ _build_question_requests [mcNoOptionsEx],
      reqIndex r = some (.int 0) ∧
      reqChoice r = some (.obj [("type", .str "RADIO"),
        ("options", .arr [])])) ∧
    (∃ r ∈ _build_question_requests [checkboxNoOptionsEx],
      reqIndex r = some (.int 0) ∧
      reqChoice r = some (.obj [("type", .str "CHECKBOX"),
        ("options", .arr [])])) :=
  ⟨rfl, rfl,
   (missing_options_degrade_empty [mcNoOptionsEx] 0 mcNoOptionsEx rfl rfl).1 rfl,
   (missing_options_degrade_empty [checkboxNoOptionsEx] 0 checkboxNoOptionsEx
     rfl rfl).2 rfl⟩

/-- C7: a recognized descriptor's request carries its title, description and
required values unchanged, required defaulting to false when absent. -/
theorem base_fields_copied (qs : List QuestionDescriptor) (i : Nat)
    (q : QuestionDescriptor) (h : qs[i]? = some q)
    (hrec : recognizedKind q = true) :
    ∃ r ∈ _build_question_requests qs, reqIndex r = some (.int i) ∧
      reqTitle r = some (jOfOptStr q.title) ∧
      reqDescription r = some (jOfOptStr q.description) ∧
      reqRequired r = some (.bool (q.required.getD false)) := by
  obtain ⟨f, hf⟩ : ∃ f, buildQuestionObj q = some f :=
    Option.isSome_iff_exists.mp (by rw [isSome_buildQuestionObj]; exact hrec)
  exact ⟨_, build_mem_of_get i qs q f h hf, reqIndex_mkRequest i _,
    reqTitle_mkRequest i q f, reqDescription_mkRequest i q f,
    reqRequired_mkRequest i q f⟩

/-- Witness for C7: a TEXT descriptor with title set and required omitted. -/
theorem base_fields_copied_witness :
    [textEx][0]? = some textEx ∧ recognizedKind textEx = true ∧
    textEx.required = none ∧
    ∃ r ∈ _build_question_requests [textEx], reqIndex r = some (.int 0) ∧
      reqTitle r = some (.str "Your name") ∧
      reqDescription r = some JVal.null ∧
      reqRequired r = some (.bool false) :=
  ⟨rfl, rfl, rfl, base_fields_copied [textEx] 0 textEx rfl rfl⟩

/-- C8: a recognized descriptor with a missing title is not dropped: its
request is still produced at the original index, with a null item title. -/
theorem missing_title_still_produced (qs : List QuestionDescriptor) (i : Nat)
    (q : QuestionDescriptor) (h : qs[i]? = some q)
    (hrec : recognizedKind q = true) (htitle : q.title = none) :
    ∃ r ∈ _build_question_requests qs, reqIndex r = some (.int i) ∧
      reqTitle r = some JVal.null := by
  obtain ⟨f, hf⟩ : ∃ f, buildQuestionObj q = some f :=
    Option.isSome_iff_exists.mp (by rw [isSome_buildQuestionObj]; exact hrec)
  have h1 := reqTitle_mkRequest i q f
  rw [htitle] at h1
  exact ⟨_, build_mem_of_get i qs q f h hf, reqIndex_mkRequest i _, h1⟩

/-- Witness for C8: a TEXT descriptor with no title at index 0. -/
theorem missing_title_still_produced_witness :
    [textNoTitleEx][0]? = some textNoTitleEx ∧
    recognizedKind textNoTitleEx = true ∧ textNoTitleEx.title = none ∧
    ∃ r ∈ _build_question_requests [textNoTitleEx],
      reqIndex r = some (.int 0) ∧ reqTitle r = some JVal.null :=
  ⟨rfl, rfl, rfl,
   missing_title_still_produced [textNoTitleEx] 0 textNoTitleEx rfl rfl rfl⟩

/-- C9: every produced request's item carries the description key (`some`
value under lookup, never absent), bound to null when the source descriptor
supplies no description. -/
theorem description_key_always_present (qs : List QuestionDescriptor)
    (r : JVal) (hr : r ∈ _build_question_requests qs) :
    ∃ (i : Nat) (q : QuestionDescriptor), reqIndex r = some (.int i) ∧
      qs[i]? = some q ∧
      reqDescription r = some (jOfOptStr q.description) ∧
      (q.description = none → reqDescription r = some JVal.null) := by
  obtain ⟨j, q, qFields, hget, hq, hreq⟩ := mem_buildAux 0 qs r hr
  subst hreq
  refine ⟨0 + j, q, reqIndex_mkRequest _ _, ?_,
    reqDescription_mkRequest _ q qFields, ?_⟩
  · simpa using hget
  · intro hd
    have h1 := reqDescription_mkRequest (0 + j) q qFields
    rw [hd] at h1
    exact h1

/-- Witness for C9: the request built from a TEXT descriptor that supplies no
description. -/
theorem description_key_always_present_witness :
    textExReq ∈ _build_question_requests [textEx] ∧
    ∃ (i : Nat) (q : QuestionDescriptor),
      reqIndex textExReq = some (.int i) ∧ [textEx][i]? = some q ∧
      reqDescription textExReq = some (jOfOptStr q.description) ∧
      (q.description = none → reqDescription textExReq = some JVal.null) := by
  have hmem : textExReq ∈ _build_question_requests [textEx] := List.Mem.head _
  exact ⟨hmem, description_key_always_present [textEx] textExReq hmem⟩

/-- C10: a SCALE descriptor missing scale_min (resp. scale_max) still yields a
request whose low (resp. high) bound is null, and any scale_labels keyed by
real bounds (no "None" key) yield a null label, the lookup key being the
stringified missing value. -/
theorem scale_missing_bound_null (qs : List QuestionDescriptor) (i : Nat)
    (q : QuestionDescriptor) (h : qs[i]? = some q)
    (ht : q.type = some "SCALE_QUESTION")
    (hkeys : ∀ p ∈ q.scale_labels.getD [], p.1 ≠ "None") :
    (q.scale_min = none →
      ∃ r ∈ _build_question_requests qs, reqIndex r = some (.int i) ∧
        scaleLow r = some JVal.null ∧ scaleLowLabel r = some JVal.null) ∧
    (q.scale_max = none →
      ∃ r ∈ _build_question_requests qs, reqIndex r = some (.int i) ∧
        scaleHigh r = some JVal.null ∧ scaleHighLabel r = some JVal.null) := by
  have hb := buildQuestionObj_scale q ht
  obtain ⟨h1, h2, h3, h4⟩ := scaleParts_mkRequest i q (jOfOptInt q.scale_min)
    (jOfOptInt q.scale_max)
    (jOfOptStr ((q.scale_labels.getD []).lookup (pyStr q.scale_min)))
    (jOfOptStr ((q.scale_labels.getD []).lookup (pyStr q.scale_max)))
  constructor
  · intro hmin
    have hlook : (q.scale_labels.getD []).lookup (pyStr q.scale_min) = none := by
      rw [hmin]
      exact lookup_none_of_no_key "None" _ hkeys
    refine ⟨_, build_mem_of_get i qs q _ h hb, reqIndex_mkRequest i _, ?_, ?_⟩
    · rw [h1, hmin]; rfl
    · rw [h3, hlook]; rfl
  · intro hmax
    have hlook : (q.scale_labels.getD []).lookup (pyStr q.scale_max) = none := by
      rw [hmax]
      exact lookup_none_of_no_key "None" _ hkeys
    refine ⟨_, build_mem_of_get i qs q _ h hb, reqIndex_mkRequest i _, ?_, ?_⟩
    · rw [h2, hmax]; rfl
    · rw [h4, hlook]; rfl

/-- Witness for C10: a SCALE descriptor with no scale_min but labels keyed by
the real bounds 1 and 5. -/
theorem scale_missing_bound_null_witness :
    [scaleNoMinEx][0]? = some scaleNoMinEx ∧ scaleNoMinEx.scale_min = none ∧
    ∃ r ∈ _build_question_requests [scaleNoMinEx],
      reqIndex r = some (.int 0) ∧
      scaleLow r = some JVal.null ∧ scaleLowLabel r = some JVal.null :=
  ⟨rfl, rfl, (scale_missing_bound_null [scaleNoMinEx] 0 scaleNoMinEx rfl rfl
    (by decide)).1 rfl⟩
